import Mathlib

/-!
Verification of the cissa-website-backend core: generic repository
pagination (`app/core/base/repository.py`), the signatory and announcement
services (`app/api/services/announcement.py`), the storage gateway wrapper
(`app/utils/supabase_storage.py`), and the announcement response schemas
(`app/api/v1/announcement/schemas.py`), shallowly embedded in Lean.

Python integers are `Int`; Python `//` is floor division (`Int.fdiv`) and
raises `ZeroDivisionError` on divisor 0, which we model with `Except`.
The relational store is a pure value (`Store`); a repository operation that
commits returns the new store, and a service failure path returns the store
unchanged (the per-request SQLAlchemy session is closed without commit when
an exception propagates, discarding uncommitted in-memory mutations).
External collaborator outcomes (database commit success, storage
upload/delete success) are oracle parameters of the service functions.
-/

/-- Python runtime errors relevant to the embedded code. -/
inductive PyError where
  | zeroDivisionError : PyError
deriving DecidableEq, Repr

/-- Python `a // b` on ints: floor division, `ZeroDivisionError` when `b = 0`. -/
def pyFloorDiv (a b : Int) : Except PyError Int :=
  if b = 0 then .error .zeroDivisionError else .ok (Int.fdiv a b)

/-- Schema `PaginatedResponse` from `app/core/base/schema.py`. -/
structure PaginatedResponse (α : Type) where
  total_items : Int
  total_pages : Int
  current_page : Int
  page_size : Int
  items : List α
deriving Repr, DecidableEq

/-- Embedding of `query.offset(off).limit(lim).all()` on the row list of a query, for the
nonnegative `off`/`lim` the claims exercise (a negative OFFSET is treated as 0,
matching SQLite; negative LIMIT is outside the claims' range). -/
def offsetLimit {α : Type} (xs : List α) (off lim : Int) : List α :=
  (xs.drop off.toNat).take lim.toNat

namespace BaseRepository

/-- Embedding of `BaseRepository.paginate` (`app/core/base/repository.py` lines 110-137).
The query is embedded as its row list, so `query.count()` is its length. -/
def paginate {α : Type} (query : List α) (page page_size : Int) :
    Except PyError (PaginatedResponse α) := do
  let total_pages ← pyFloorDiv ((query.length : Int) + page_size - 1) page_size
  let page := if page > total_pages && total_pages != 0 then total_pages else page
  pure {
    total_items := (query.length : Int)
    total_pages := total_pages
    current_page := page
    page_size := page_size
    items := offsetLimit query ((page - 1) * page_size) page_size
  }

end BaseRepository

/-! ## Data model (`app/api/models/announcement.py`) -/

/-- The `Signatory` model: `name`/`role` non-nullable, `alias`/`contact` nullable. -/
structure Signatory where
  id : String
  name : String
  «alias» : Option String
  role : String
  contact : Option String
deriving DecidableEq, Repr

/-- The `Announcement` model: `image_url` nullable; `signatories` is the
many-to-many relationship through `announcement_signatories`, held as the
resolved signatory rows. -/
structure Announcement where
  id : String
  title : String
  image_url : Option String
  category : String
  body : String
  session : String
  published_at : String
  signatories : List Signatory
deriving DecidableEq, Repr

/-- Model of `fastapi.HTTPException` as raised by the services. -/
structure HTTPException where
  status_code : Nat
  detail : String
deriving DecidableEq, Repr

/-- The relational store plus the external object storage, as one pure value.
`storage` is the set of object paths present in the `announcements` bucket.
A repository method that commits returns the updated store; a service failure
path returns the store it received (the per-request session is closed without
commit when the exception propagates, discarding in-memory mutations). -/
structure Store where
  signatories : List Signatory
  announcements : List Announcement
  storage : List String
deriving DecidableEq, Repr

/-- Entities with a primary-key `id` column, for the generic repository.
The store keeps `id` unique (it is a generated primary key). -/
class HasId (α : Type) where
  entityId : α → String

instance : HasId Signatory := ⟨Signatory.id⟩

instance : HasId Announcement := ⟨Announcement.id⟩

namespace BaseRepository

/-- Embedding of `BaseRepository.get`: `query.filter(model.id == id).first()`. -/
def get {α : Type} [HasId α] (db : List α) (i : String) : Option α :=
  (db.filter (fun x => HasId.entityId x == i)).head?

/-- Embedding of `BaseRepository.create`: adds the row and returns it. -/
def createRow {α : Type} (db : List α) (obj : α) : α × List α :=
  (obj, db ++ [obj])

/-- Embedding of `BaseRepository.update`: looks the row up by the id of `obj`; if present,
overwrites every field from `obj` and commits, returning the updated row;
otherwise returns `none` (Python `None`) and leaves the store unchanged. -/
def updateRow {α : Type} [HasId α] (db : List α) (obj : α) : Option α × List α :=
  match get db (HasId.entityId obj) with
  | some _ =>
      (some obj, db.map (fun x => if HasId.entityId x == HasId.entityId obj then obj else x))
  | none => (none, db)

/-- Embedding of `BaseRepository.delete`: removes the row with the given primary key if
present, returning whether a row was removed. -/
def deleteRow {α : Type} [HasId α] (db : List α) (i : String) : Bool × List α :=
  match get db i with
  | some _ => (true, db.filter (fun x => !(HasId.entityId x == i)))
  | none => (false, db)

end BaseRepository

/-! ## Storage gateway (`app/utils/supabase_storage.py`) -/

/-- Modelled from the spec: the external storage client's public-URL helper —
the gateway "return[s] a public reference URL" for the object at
`bucket`/`path`; the wrapper returns it unchanged. -/
def get_public_url (bucket path : String) : String :=
  "https://supabase.example.com/storage/v1/object/public/" ++ bucket ++ "/" ++ path

/-- Embedding of `upload_image_to_supabase`: on success the object is stored at `path`
(upsert: re-uploading to the same path replaces it) and the public URL is
returned; on failure the wrapper re-raises. The underlying external call's
outcome is the oracle `ok`. -/
def upload_image_to_supabase (storage : List String) (bucket path : String) (ok : Bool) :
    Except Unit (String × List String) :=
  if ok then
    .ok (get_public_url bucket path,
      if storage.contains path then storage else storage ++ [path])
  else .error ()

/-- Embedding of `delete_image_from_supabase`: removes the object at `path`, re-raising on
failure of the underlying call (oracle `ok`). -/
def delete_image_from_supabase (storage : List String) (_bucket path : String) (ok : Bool) :
    Except Unit (List String) :=
  if ok then .ok (storage.filter (fun p => !(p == path))) else .error ()

/-- Python `s.split(sep)[-1]` for a one-character separator: the suffix after
the last occurrence of the separator, or the whole string when the separator
does not occur (this is exactly the last element of Python's `split`). -/
def splitLast (c : Char) (s : String) : String :=
  String.mk ((s.data.reverse.takeWhile (fun x => x != c)).reverse)

/-- Python `filename.split('.')[-1]`: the last dot-separated component. -/
def fileExt (filename : String) : String :=
  splitLast '.' filename

/-! ## Request schemas (`app/api/v1/announcement/schemas.py`) -/

/-- The create form `AnnouncementForm`. Of the uploaded file only its
filename reaches the embedded logic (path derivation); its bytes go to the
external gateway. -/
structure AnnouncementForm where
  title : String
  image_filename : String
  category : String
  body : String
  session : String
  published_at : String
  signatories : List String
deriving DecidableEq, Repr

/-- Schema `SignatoryUpdateRequest` with pydantic unset-tracking
(`model_dump(exclude_unset=True)`): `none` = field absent from the request.
For the nullable columns `alias`/`contact` a present field carries an
`Option String`, so `some none` is a field explicitly set to null — distinct
from `none` (omitted). The non-nullable columns `name`/`role` carry a plain
value when present (explicitly nulling them would violate the column's
NOT NULL constraint, outside these claims). -/
structure SignatoryUpdateRequest where
  name : Option String
  «alias» : Option (Option String)
  role : Option String
  contact : Option (Option String)
deriving DecidableEq, Repr

/-- Schema `AnnouncementUpdateForm`: every field optional, `none` = omitted
(all the scalar columns it can set are NOT NULL). `image` carries the new
upload's filename when supplied; `signatories` the new id list. -/
structure AnnouncementUpdateForm where
  title : Option String
  image : Option String
  category : Option String
  body : Option String
  session : Option String
  published_at : Option String
  signatories : Option (List String)
deriving DecidableEq, Repr

/-! ## Services (`app/api/services/announcement.py`) -/

namespace SignatoryService

/-- The `setattr` loop over `schema.model_dump(exclude_unset=True)`
(`app/api/services/announcement.py` lines 76-77). -/
def applyUpdate (s : Signatory) (r : SignatoryUpdateRequest) : Signatory :=
  { s with
    name := r.name.getD s.name
    «alias» := r.«alias».getD s.«alias»
    role := r.role.getD s.role
    contact := r.contact.getD s.contact }

/-- Embedding of `SignatoryService.update` (lines 59-87): 404 when absent, otherwise apply
the set fields and persist; a commit failure (oracle `commitOk = false`)
surfaces as a 500 and leaves the store unchanged. `.ok none` is Python
returning `None` from `repository.update`. -/
def update (st : Store) (signatory_id : String) (schema : SignatoryUpdateRequest)
    (commitOk : Bool) : Except HTTPException (Option Signatory) × Store :=
  match BaseRepository.get st.signatories signatory_id with
  | none => (.error ⟨404, "Signatory not found"⟩, st)
  | some signatory =>
    let s2 := applyUpdate signatory schema
    if commitOk then
      let (res, db2) := BaseRepository.updateRow st.signatories s2
      (.ok res, { st with signatories := db2 })
    else
      (.error ⟨500, "An error occurred while updating the signatory"⟩, st)

end SignatoryService

namespace AnnouncementService

/-- The signatory-resolution loop shared by create and update (lines 131-140
and 210-219): resolve ids in order, failing fast with a 404 naming the first
unresolved id. -/
def resolve_signatories (db : List Signatory) :
    List String → Except HTTPException (List Signatory)
  | [] => .ok []
  | i :: rest =>
    match BaseRepository.get db i with
    | none => .error ⟨404, "Signatory with ID " ++ i ++ " not found"⟩
    | some s =>
      match resolve_signatories db rest with
      | .error e => .error e
      | .ok tl => .ok (s :: tl)

/-- External outcomes of the fallible steps listed in `create`: the DB commit
of the new row, the storage upload, and the DB commit persisting the URL.
`updateOk` corresponds to the source's third `try` block (lines 178-191),
which is unreachable — see `create` — and is kept only to mirror the
source's step list; `create` never consults it. -/
structure CreateOracle where
  persistOk : Bool
  uploadOk : Bool
  updateOk : Bool
deriving DecidableEq, Repr

/-- Embedding of `AnnouncementService.create` (lines 124-191): resolve
signatories (fail-fast 404), persist the row (500 on failure, nothing
persisted), then run the image step. The source writes
`await upload_image_to_supabase(...)` (line 166) but the helper is a plain
synchronous `def` returning `str`: the helper runs during evaluation of the
call (so an externally successful upload does create the storage object),
and the `await` on the returned `str` then raises `TypeError` inside the
same `try` — so the image step always ends in the upload 500, whatever the
external outcome, and the URL-persist step (lines 178-191) is unreachable:
the persisted row always keeps `image_url` empty. `newId` is the generated
primary key. -/
def create (st : Store) (schema : AnnouncementForm) (newId : String)
    (o : CreateOracle) : Except HTTPException (Option Announcement) × Store :=
  match resolve_signatories st.signatories schema.signatories with
  | .error e => (.error e, st)
  | .ok sigs =>
    let announcement : Announcement :=
      { id := newId
        title := schema.title
        image_url := none
        category := schema.category
        body := schema.body
        session := schema.session
        published_at := schema.published_at
        signatories := sigs }
    if o.persistOk then
      let (new_announcement, db2) := BaseRepository.createRow st.announcements announcement
      let st2 := { st with announcements := db2 }
      let image_path :=
        "announcements/" ++ new_announcement.id ++ "." ++ fileExt schema.image_filename
      (.error ⟨500, "An error occurred while uploading the announcement image"⟩,
        match upload_image_to_supabase st2.storage "announcements" image_path
            o.uploadOk with
        | .error _ => st2
        | .ok (_url, storage2) => { st2 with storage := storage2 })
    else
      (.error ⟨500, "An error occurred while creating the announcement"⟩, st)

/-- The `setattr` loop over
`schema.model_dump(exclude_unset=True, exclude={"signatories", "image"})`
(lines 241-244). -/
def applyUpdate (a : Announcement) (r : AnnouncementUpdateForm) : Announcement :=
  { a with
    title := r.title.getD a.title
    category := r.category.getD a.category
    body := r.body.getD a.body
    session := r.session.getD a.session
    published_at := r.published_at.getD a.published_at }

/-- Embedding of `AnnouncementService.update` (lines 193-256): 404 when
absent; if a signatory list is supplied (even empty) re-resolve it
(fail-fast 404), replacing the association set; if a new image is supplied,
the image step runs — and, as in `create`, the source's
`await upload_image_to_supabase(...)` (line 229) awaits the synchronous
helper's `str`, raising `TypeError` inside the same `try`: supplying an
image therefore always aborts the update with the upload 500, before any
field assignment or persistence (an externally successful upload still
replaces the storage object first). With no image supplied, the other set
fields are applied and committed (oracle `commitOk`; failure is a 500 with
the DB unchanged). -/
def update (st : Store) (announcement_id : String) (schema : AnnouncementUpdateForm)
    (uploadOk commitOk : Bool) : Except HTTPException (Option Announcement) × Store :=
  match BaseRepository.get st.announcements announcement_id with
  | none => (.error ⟨404, "Announcement not found"⟩, st)
  | some announcement =>
    match (match schema.signatories with
           | none => Except.ok announcement
           | some ids =>
             match resolve_signatories st.signatories ids with
             | .error e => .error e
             | .ok sigs => .ok { announcement with signatories := sigs }) with
    | .error e => (.error e, st)
    | .ok ann1 =>
      match schema.image with
      | some fname =>
        let image_path :=
          "announcements/" ++ announcement.id ++ "." ++ fileExt fname
        (.error ⟨500, "An error occurred while uploading the announcement image"⟩,
          match upload_image_to_supabase st.storage "announcements" image_path
              uploadOk with
          | .error _ => st
          | .ok (_url, storage2) => { st with storage := storage2 })
      | none =>
        let ann3 := applyUpdate ann1 schema
        if commitOk then
          let (res, db2) := BaseRepository.updateRow st.announcements ann3
          (.ok res, { st with announcements := db2 })
        else
          (.error ⟨500, "An error occurred while updating the announcement"⟩, st)

/-- Embedding of `AnnouncementService.delete` (lines 258-296): 404 when absent; if the row
has an `image_url`, derive the object path from the URL's last path segment
and the row's id and delete the object (a failure is a 500 and the DB delete
is never reached); then delete the row (oracle `dbOk` for the commit). -/
def delete (st : Store) (announcement_id : String) (storageOk dbOk : Bool) :
    Except HTTPException Bool × Store :=
  match BaseRepository.get st.announcements announcement_id with
  | none => (.error ⟨404, "Announcement not found"⟩, st)
  | some announcement =>
    let deleteDb : Store → Except HTTPException Bool × Store := fun st1 =>
      if dbOk then
        let (removed, db2) := BaseRepository.deleteRow st1.announcements announcement_id
        (.ok removed, { st1 with announcements := db2 })
      else
        (.error ⟨500, "An error occurred while deleting the announcement"⟩, st1)
    match announcement.image_url with
    | some url =>
      let filename := splitLast '/' url
      let image_path := "announcements/" ++ announcement.id ++ "." ++ fileExt filename
      match delete_image_from_supabase st.storage "announcements" image_path storageOk with
      | .error _ =>
        (.error ⟨500, "An error occurred while deleting the announcement image"⟩, st)
      | .ok storage2 => deleteDb { st with storage := storage2 }
    | none => deleteDb st

/-- Embedding of `AnnouncementService.list_announcements` (lines 298-314): paginate the
unfiltered base query. -/
def list_announcements (st : Store) (page page_size : Int) :
    Except PyError (PaginatedResponse Announcement) :=
  BaseRepository.paginate st.announcements page page_size

end AnnouncementService

/-! ## Serialized values and response schemas
(`app/api/models/announcement.py` `to_dict`,
`app/api/v1/announcement/schemas.py` response models) -/

/-- A serialized Python value (the JSON-able subset these endpoints emit). -/
inductive PyValue where
  | vStr : String → PyValue
  | vNone : PyValue
  | vList : List PyValue → PyValue
  | vDict : List (String × PyValue) → PyValue

/-- Serialize an optional string column. -/
def optStr : Option String → PyValue
  | none => .vNone
  | some s => .vStr s

/-- Embedding of `Signatory.to_dict` (`app/api/models/announcement.py` lines 26-33). -/
def Signatory.to_dict (s : Signatory) : List (String × PyValue) :=
  [("id", .vStr s.id), ("name", .vStr s.name), ("alias", optStr s.«alias»),
   ("role", .vStr s.role), ("contact", optStr s.contact)]

/-- Embedding of `Announcement.to_dict` (lines 54-64): note it does include `image_url`. -/
def Announcement.to_dict (a : Announcement) : List (String × PyValue) :=
  [("id", .vStr a.id), ("title", .vStr a.title), ("image_url", optStr a.image_url),
   ("category", .vStr a.category), ("body", .vStr a.body),
   ("session", .vStr a.session), ("published_at", .vStr a.published_at),
   ("signatories", .vList (a.signatories.map (fun s => .vDict s.to_dict)))]

/-- Schema `SignatoryResponseData` (`schemas.py` lines 25-30). -/
structure SignatoryResponseData where
  id : String
  name : String
  «alias» : Option String
  role : String
  contact : Option String
deriving DecidableEq, Repr

/-- Schema `AnnouncementResponse` (`schemas.py` lines 33-40). Its declared fields are
exactly `id, title, category, body, session, published_at, signatories` —
there is no `image_url` field. -/
structure AnnouncementResponse where
  id : String
  title : String
  category : String
  body : String
  session : String
  published_at : String
  signatories : List SignatoryResponseData
deriving DecidableEq, Repr

/-- Embedding of `SignatoryResponseData(**signatory.to_dict())`: pydantic keyword
construction binds each declared field from the dict. -/
def signatoryToResponse (s : Signatory) : SignatoryResponseData :=
  { id := s.id, name := s.name, «alias» := s.«alias», role := s.role,
    contact := s.contact }

/-- Embedding of `AnnouncementResponse(**announcement.to_dict())`: pydantic keyword
construction binds each declared field from the dict and silently ignores the
extra keys (the default `extra="ignore"` drops the dict's `image_url`). -/
def announcementToResponse (a : Announcement) : AnnouncementResponse :=
  { id := a.id, title := a.title, category := a.category, body := a.body,
    session := a.session, published_at := a.published_at,
    signatories := a.signatories.map signatoryToResponse }

/-- pydantic serialization of `SignatoryResponseData`: exactly its declared
fields. -/
def SignatoryResponseData.model_dump (s : SignatoryResponseData) :
    List (String × PyValue) :=
  [("id", .vStr s.id), ("name", .vStr s.name), ("alias", optStr s.«alias»),
   ("role", .vStr s.role), ("contact", optStr s.contact)]

/-- pydantic serialization of `AnnouncementResponse`: exactly its declared
fields (no `image_url`). -/
def AnnouncementResponse.model_dump (r : AnnouncementResponse) :
    List (String × PyValue) :=
  [("id", .vStr r.id), ("title", .vStr r.title), ("category", .vStr r.category),
   ("body", .vStr r.body), ("session", .vStr r.session),
   ("published_at", .vStr r.published_at),
   ("signatories", .vList (r.signatories.map (fun s => .vDict s.model_dump)))]

/-! ## Routes (`app/api/v1/announcement/routes.py`) -/

/-- Embedding of the `create_announcement` route (lines 186-217): run the service, then build
`AnnouncementResponse(**announcement.to_dict())`. A service `None` result
would crash the route on `.to_dict` and surface as the framework's generic
500. -/
def create_announcement (st : Store) (schema : AnnouncementForm) (newId : String)
    (o : AnnouncementService.CreateOracle) :
    Except HTTPException AnnouncementResponse × Store :=
  match AnnouncementService.create st schema newId o with
  | (.error e, st2) => (.error e, st2)
  | (.ok none, st2) => (.error ⟨500, "Internal Server Error"⟩, st2)
  | (.ok (some a), st2) => (.ok (announcementToResponse a), st2)

/-- Embedding of the `get_all_announcements` route (lines 148-183): `page` and `page_size`
query parameters (defaults 1 and 10) are passed to the service unchecked;
each returned row is converted to its response representation. -/
def get_all_announcements (st : Store) (page page_size : Int) :
    Except PyError (PaginatedResponse AnnouncementResponse) :=
  match AnnouncementService.list_announcements st page page_size with
  | .error e => .error e
  | .ok r =>
    .ok { total_items := r.total_items, total_pages := r.total_pages,
          current_page := r.current_page, page_size := r.page_size,
          items := r.items.map announcementToResponse }

/-! ## Concrete sample data for witnesses -/

/-- A sample signatory row. -/
def jane : Signatory :=
  { id := "sig-1", name := "Jane Doe", «alias» := none, role := "Chair",
    contact := none }

/-- A second sample signatory row. -/
def mark : Signatory :=
  { id := "sig-2", name := "Mark Roe", «alias» := none, role := "Secretary",
    contact := none }

/-- A sample stored announcement without an image. -/
def annNoImage : Announcement :=
  { id := "ann-1", title := "Q1 Update", image_url := none,
    category := "General", body := "hello", session := "2024",
    published_at := "2024-01-01T00:00:00Z", signatories := [jane] }

/-- A sample stored announcement with an image reference. -/
def annWithImage : Announcement :=
  { annNoImage with
    id := "ann-2"
    image_url := some "https://supabase.example.com/storage/v1/object/public/announcements/announcements/ann-2.png" }

/-! ## Pagination lemmas -/

/-- Computed form of `paginate` when the divisor is nonzero. -/
theorem paginate_eq {α : Type} (query : List α) (page page_size : Int)
    (hne : page_size ≠ 0) :
    BaseRepository.paginate query page page_size =
      .ok { total_items := (query.length : Int)
            total_pages := Int.fdiv ((query.length : Int) + page_size - 1) page_size
            current_page :=
              if page > Int.fdiv ((query.length : Int) + page_size - 1) page_size &&
                  Int.fdiv ((query.length : Int) + page_size - 1) page_size != 0 then
                Int.fdiv ((query.length : Int) + page_size - 1) page_size
              else page
            page_size := page_size
            items :=
              offsetLimit query
                (((if page > Int.fdiv ((query.length : Int) + page_size - 1) page_size &&
                      Int.fdiv ((query.length : Int) + page_size - 1) page_size != 0 then
                    Int.fdiv ((query.length : Int) + page_size - 1) page_size
                  else page) - 1) * page_size) page_size } := by
  simp [BaseRepository.paginate, pyFloorDiv, hne, Bind.bind, Except.bind, Pure.pure,
    Except.pure]

/-- For `page_size > 0` the division succeeds and `total_pages` is
`(len + page_size - 1) / page_size` in euclidean division. -/
theorem paginate_ok {α : Type} (query : List α) (page page_size : Int)
    (hps : 0 < page_size) :
    ∃ r, BaseRepository.paginate query page page_size = .ok r ∧
      r.total_items = (query.length : Int) ∧
      r.total_pages = ((query.length : Int) + page_size - 1) / page_size ∧
      r.page_size = page_size ∧
      r.current_page =
        (if page > r.total_pages && r.total_pages != 0 then r.total_pages else page) ∧
      r.items = offsetLimit query ((r.current_page - 1) * page_size) page_size := by
  have hne : page_size ≠ 0 := ne_of_gt hps
  have hfd : Int.fdiv ((query.length : Int) + page_size - 1) page_size =
      ((query.length : Int) + page_size - 1) / page_size :=
    Int.fdiv_eq_ediv _ (le_of_lt hps)
  rw [paginate_eq query page page_size hne]
  rw [hfd]
  exact ⟨_, rfl, rfl, rfl, rfl, rfl, rfl⟩

/-- Ceiling characterisation: with `n ≥ 0`, `b > 0`, `q = (n + b - 1) / b`
satisfies `n ≤ q * b` and `(q - 1) * b < n`, and `q = 0 ↔ n = 0`. -/
theorem ediv_ceil_char (n b : Int) (hn : 0 ≤ n) (hb : 0 < b) :
    n ≤ ((n + b - 1) / b) * b ∧ ((n + b - 1) / b - 1) * b < n ∧
      ((n + b - 1) / b = 0 ↔ n = 0) := by
  set q := (n + b - 1) / b with hq
  have hmod := Int.ediv_add_emod (n + b - 1) b
  have hmnn : 0 ≤ (n + b - 1) % b := Int.emod_nonneg _ (ne_of_gt hb)
  have hmlt : (n + b - 1) % b < b := Int.emod_lt_of_pos _ hb
  set r := (n + b - 1) % b with hr
  have h1 : n ≤ q * b := by nlinarith [hmod]
  have h2 : (q - 1) * b < n := by nlinarith [hmod]
  refine ⟨h1, h2, ?_, ?_⟩
  · intro h0
    rw [h0] at h1
    simp at h1
    omega
  · intro h0
    rw [hq, h0]
    exact Int.ediv_eq_zero_of_lt (by omega) (by omega)

/-- C1: for every `page_size > 0` and every query, `paginate` succeeds and
returns `total_pages = ⌈total_items / page_size⌉` (as a rational ceiling),
and `total_pages = 0` iff `total_items = 0`. -/
theorem paginate_total_pages_ceil {α : Type} (query : List α) (page page_size : Int)
    (hps : 0 < page_size) :
    ∃ r, BaseRepository.paginate query page page_size = .ok r ∧
      r.total_items = (query.length : Int) ∧
      r.total_pages = ⌈(r.total_items : ℚ) / (page_size : ℚ)⌉ ∧
      (r.total_pages = 0 ↔ r.total_items = 0) := by
  obtain ⟨r, hr, hti, htp, _, _, _⟩ := paginate_ok query page page_size hps
  have hn : (0 : Int) ≤ (query.length : Int) := Int.natCast_nonneg _
  obtain ⟨h1, h2, hiff⟩ := ediv_ceil_char (query.length : Int) page_size hn hps
  refine ⟨r, hr, hti, ?_, ?_⟩
  · rw [htp, hti]
    symm
    rw [Int.ceil_eq_iff]
    have hbq : (0 : ℚ) < (page_size : ℚ) := by exact_mod_cast hps
    constructor
    · rw [lt_div_iff₀ hbq]
      exact_mod_cast h2
    · rw [div_le_iff₀ hbq]
      exact_mod_cast h1
  · rw [htp, hti]
    exact hiff

/-! ## Repository lemmas -/

/-- Unfolding of `get` on a cons. -/
theorem get_cons {α : Type} [HasId α] (x : α) (l : List α) (i : String) :
    BaseRepository.get (x :: l) i =
      if HasId.entityId x == i then some x else BaseRepository.get l i := by
  by_cases h : HasId.entityId x == i <;> simp [BaseRepository.get, List.filter_cons, h]

/-- A row returned by `get` carries the looked-up id. -/
theorem get_entityId {α : Type} [HasId α] (db : List α) (i : String) (s : α)
    (h : BaseRepository.get db i = some s) : HasId.entityId s = i := by
  induction db with
  | nil => simp [BaseRepository.get] at h
  | cons x rest ih =>
    rw [get_cons] at h
    by_cases hx : HasId.entityId x == i
    · rw [if_pos hx] at h
      cases h
      exact eq_of_beq hx
    · rw [if_neg hx] at h
      exact ih h

/-- Lookup by `get` finds a freshly appended row when no earlier row has its id. -/
theorem get_append_fresh {α : Type} [HasId α] (db : List α) (obj : α)
    (h : ∀ x ∈ db, HasId.entityId x ≠ HasId.entityId obj) :
    BaseRepository.get (db ++ [obj]) (HasId.entityId obj) = some obj := by
  induction db with
  | nil => simp [BaseRepository.get, List.filter_cons]
  | cons x rest ih =>
    rw [List.cons_append, get_cons]
    have hx : ¬(HasId.entityId x == HasId.entityId obj) := by
      simpa using h x (by simp)
    rw [if_neg hx]
    exact ih (fun y hy => h y (by simp [hy]))

/-- Computed form of `updateRow` when the id is present. -/
theorem updateRow_of_mem {α : Type} [HasId α] (db : List α) (obj : α)
    (h : BaseRepository.get db (HasId.entityId obj) ≠ none) :
    BaseRepository.updateRow db obj =
      (some obj,
        db.map (fun x => if HasId.entityId x == HasId.entityId obj then obj else x)) := by
  unfold BaseRepository.updateRow
  obtain ⟨y, hy⟩ := Option.ne_none_iff_exists'.mp h
  rw [hy]

/-- After `updateRow` replaces the row, `get` on its id returns the new row. -/
theorem get_map_replace {α : Type} [HasId α] (db : List α) (obj : α) (i : String)
    (hid : HasId.entityId obj = i) (h : BaseRepository.get db i ≠ none) :
    BaseRepository.get
        (db.map (fun x => if HasId.entityId x == HasId.entityId obj then obj else x)) i
      = some obj := by
  induction db with
  | nil => simp [BaseRepository.get] at h
  | cons x rest ih =>
    rw [List.map_cons]
    by_cases hx : HasId.entityId x == HasId.entityId obj
    · rw [if_pos hx, get_cons, if_pos (by simp [hid])]
    · rw [if_neg hx, get_cons]
      have hxi : ¬(HasId.entityId x == i) := by
        intro hc
        exact hx (by rw [hid]; exact hc)
      rw [if_neg hxi]
      apply ih
      rw [get_cons, if_neg hxi] at h
      exact h

/-! ## Signatory resolution lemmas -/

/-- When some id in the list is unresolved, `resolve_signatories` fails with a
404 naming the first unresolved id in list order, every id before it being
resolved. -/
theorem resolve_signatories_first_error (db : List Signatory) (ids : List String)
    (h : ∃ i ∈ ids, BaseRepository.get db i = none) :
    ∃ pre badId post, ids = pre ++ badId :: post ∧
      (∀ j ∈ pre, BaseRepository.get db j ≠ none) ∧
      BaseRepository.get db badId = none ∧
      AnnouncementService.resolve_signatories db ids =
        .error ⟨404, "Signatory with ID " ++ badId ++ " not found"⟩ := by
  induction ids with
  | nil => simp at h
  | cons i rest ih =>
    by_cases hi : BaseRepository.get db i = none
    · exact ⟨[], i, rest, rfl, by simp, hi,
        by simp [AnnouncementService.resolve_signatories, hi]⟩
    · obtain ⟨j, hj, hjn⟩ := h
      have hjr : j ∈ rest := by
        rcases List.mem_cons.mp hj with h1 | h1
        · exact absurd (h1 ▸ hjn) hi
        · exact h1
      obtain ⟨pre, badId, post, heq, hpre, hbad, hres⟩ := ih ⟨j, hjr, hjn⟩
      refine ⟨i :: pre, badId, post, by rw [heq, List.cons_append], ?_, hbad, ?_⟩
      · intro k hk
        rcases List.mem_cons.mp hk with h1 | h1
        · rw [h1]; exact hi
        · exact hpre k h1
      · obtain ⟨s, hs⟩ := Option.ne_none_iff_exists'.mp hi
        simp [AnnouncementService.resolve_signatories, hs, hres]

/-! ## Claim C2 -/

/-- C2: for a non-empty query and `page_size > 0`, calling `paginate` with a
requested `page` greater than `total_pages` returns `current_page` clamped to
`total_pages` and `items` equal to the last page's slice, which is
non-empty. -/
theorem paginate_overflow_returns_last_page {α : Type} (query : List α)
    (page page_size : Int) (r : PaginatedResponse α)
    (hps : 0 < page_size) (hne : query ≠ [])
    (hok : BaseRepository.paginate query page page_size = .ok r)
    (hgt : page > r.total_pages) :
    r.current_page = r.total_pages ∧
      r.items = offsetLimit query ((r.total_pages - 1) * page_size) page_size ∧
      r.items ≠ [] := by
  obtain ⟨r0, hr0, hti, htp, hsz, hcp, hit⟩ := paginate_ok query page page_size hps
  rw [hok] at hr0
  cases hr0
  have hlen : 0 < query.length := List.length_pos.mpr hne
  obtain ⟨h1, h2, hiff⟩ :=
    ediv_ceil_char (query.length : Int) page_size (Int.natCast_nonneg _) hps
  have htp_ne : r.total_pages ≠ 0 := by
    rw [htp]
    intro h0
    have := hiff.mp h0
    omega
  have hcond : (page > r.total_pages && r.total_pages != 0) = true := by
    simp [hgt, htp_ne]
  rw [hcond] at hcp
  simp at hcp
  refine ⟨hcp, ?_, ?_⟩
  · rw [hit, hcp]
  · have htp_pos : 0 < r.total_pages := by
      have hq0 : 0 ≤ ((query.length : Int) + page_size - 1) / page_size :=
        Int.ediv_nonneg (by omega) (le_of_lt hps)
      omega
    have hofflt : (r.total_pages - 1) * page_size < (query.length : Int) := by
      rw [htp]
      exact h2
    have hoffnn : 0 ≤ (r.total_pages - 1) * page_size :=
      mul_nonneg (by omega) (le_of_lt hps)
    rw [hit, hcp]
    unfold offsetLimit
    intro hnil
    have hlen2 := congrArg List.length hnil
    rw [List.length_take, List.length_drop] at hlen2
    simp at hlen2
    generalize hm : (r.total_pages - 1) * page_size = m at hofflt hoffnn hlen2
    omega

/-- Witness for C2 at a concrete input: three rows, `page_size = 2`, requested
page 5; the result is clamped to page 2 with the last (one-element) slice. -/
theorem paginate_overflow_returns_last_page_witness :
    (0 : Int) < 2 ∧ ([0, 1, 2] : List Nat) ≠ [] ∧
      ∃ r, BaseRepository.paginate ([0, 1, 2] : List Nat) 5 2 = .ok r ∧
        5 > r.total_pages ∧
        r.current_page = r.total_pages ∧
        r.items = offsetLimit ([0, 1, 2] : List Nat) ((r.total_pages - 1) * 2) 2 ∧
        r.items ≠ [] := by
  have hok : BaseRepository.paginate ([0, 1, 2] : List Nat) 5 2 =
      .ok { total_items := 3, total_pages := 2, current_page := 2, page_size := 2,
            items := [2] } := by rfl
  have hgt : (5 : Int) > (2 : Int) := by decide
  obtain ⟨ha, hb, hc⟩ :=
    paginate_overflow_returns_last_page ([0, 1, 2] : List Nat) 5 2 _
      (by decide) (by decide) hok (by decide)
  exact ⟨by decide, by decide, _, hok, by decide, ha, hb, hc⟩

/-! ## Claim C10 -/

/-- C10: `paginate` is total only under `page_size > 0`: at `page_size = 0`
the `total_pages` computation divides by zero and the operation fails with
`ZeroDivisionError`, and `page_size` reaches `paginate` unchecked from the
public list endpoint, which therefore fails the same way; for
`page_size > 0` the operation succeeds. -/
theorem paginate_page_size_zero_division (st : Store) (page : Int) :
    BaseRepository.paginate st.announcements page 0 = .error .zeroDivisionError ∧
      get_all_announcements st page 0 = .error .zeroDivisionError ∧
      ∀ page_size : Int, 0 < page_size →
        ∃ r, get_all_announcements st page page_size = .ok r := by
  have hz : BaseRepository.paginate st.announcements page 0 =
      .error .zeroDivisionError := by
    simp [BaseRepository.paginate, pyFloorDiv, Bind.bind, Except.bind]
  refine ⟨hz, ?_, ?_⟩
  · simp [get_all_announcements, AnnouncementService.list_announcements, hz]
  · intro ps hps
    obtain ⟨r, hr, -⟩ := paginate_ok st.announcements page ps hps
    refine ⟨PaginatedResponse.mk r.total_items r.total_pages r.current_page
      r.page_size (r.items.map announcementToResponse), ?_⟩
    simp [get_all_announcements, AnnouncementService.list_announcements, hr]

/-! ## Claim C1 witness -/

/-- Witness for C1 at a concrete input: three rows with `page_size = 2` give
`total_pages = 2 = ⌈3/2⌉`. -/
theorem paginate_total_pages_ceil_witness :
    (0 : Int) < 2 ∧
      ∃ r, BaseRepository.paginate ([0, 1, 2] : List Nat) 1 2 = .ok r ∧
        r.total_items = ((([0, 1, 2] : List Nat).length : Int)) ∧
        r.total_pages = ⌈(r.total_items : ℚ) / ((2 : Int) : ℚ)⌉ ∧
        (r.total_pages = 0 ↔ r.total_items = 0) :=
  ⟨by decide, paginate_total_pages_ceil ([0, 1, 2] : List Nat) 1 2 (by decide)⟩

/-! ## Claim C3 -/

/-- C3: creating an announcement whose signatory id list contains at least
one unresolved id fails with a 404 naming the first unresolved id in list
order (all ids before it resolve), and the store — announcement rows,
associations, storage objects — is unchanged. -/
theorem create_unresolved_signatory_not_found (st : Store)
    (schema : AnnouncementForm) (newId : String)
    (o : AnnouncementService.CreateOracle)
    (h : ∃ i ∈ schema.signatories, BaseRepository.get st.signatories i = none) :
    ∃ pre badId post, schema.signatories = pre ++ badId :: post ∧
      (∀ j ∈ pre, BaseRepository.get st.signatories j ≠ none) ∧
      BaseRepository.get st.signatories badId = none ∧
      AnnouncementService.create st schema newId o =
        (.error ⟨404, "Signatory with ID " ++ badId ++ " not found"⟩, st) := by
  obtain ⟨pre, badId, post, heq, hpre, hbad, hres⟩ :=
    resolve_signatories_first_error st.signatories schema.signatories h
  refine ⟨pre, badId, post, heq, hpre, hbad, ?_⟩
  simp only [AnnouncementService.create, hres]

/-- Witness for C3: a store knowing only `sig-1`, a request naming
`sig-1` then `sig-404`: the 404 names `sig-404` and the store is returned
unchanged. -/
theorem create_unresolved_signatory_not_found_witness :
    (∃ i ∈ ["sig-1", "sig-404"],
        BaseRepository.get (Store.mk [jane] [] []).signatories i = none) ∧
      ∃ pre badId post, (["sig-1", "sig-404"] : List String) = pre ++ badId :: post ∧
        (∀ j ∈ pre, BaseRepository.get (Store.mk [jane] [] []).signatories j ≠ none) ∧
        BaseRepository.get (Store.mk [jane] [] []).signatories badId = none ∧
        AnnouncementService.create (Store.mk [jane] [] [])
            (AnnouncementForm.mk "Q1 Update" "pic.png" "General" "hello" "2024"
              "2024-01-01T00:00:00Z" ["sig-1", "sig-404"])
            "ann-9" (AnnouncementService.CreateOracle.mk true true true) =
          (.error ⟨404, "Signatory with ID " ++ badId ++ " not found"⟩,
            Store.mk [jane] [] []) := by
  have h : ∃ i ∈ ["sig-1", "sig-404"],
      BaseRepository.get (Store.mk [jane] [] []).signatories i = none :=
    ⟨"sig-404", by simp, rfl⟩
  exact ⟨h, create_unresolved_signatory_not_found (Store.mk [jane] [] [])
    (AnnouncementForm.mk "Q1 Update" "pic.png" "General" "hello" "2024"
      "2024-01-01T00:00:00Z" ["sig-1", "sig-404"])
    "ann-9" (AnnouncementService.CreateOracle.mk true true true) h⟩

/-! ## Claim C4 -/

/-- C4: when every signatory id resolves, the database persist succeeds, and
the image upload then fails, `create` reports the storage 500 and the
already-persisted row remains in the store — retrievable by its id — with an
absent image reference; it is not rolled back. -/
theorem create_upload_failure_keeps_row (st : Store) (schema : AnnouncementForm)
    (newId : String) (updateOk : Bool) (sigs : List Signatory) (ann : Announcement)
    (hres : AnnouncementService.resolve_signatories st.signatories
      schema.signatories = .ok sigs)
    (hfresh : ∀ a ∈ st.announcements, a.id ≠ newId)
    (hann : ann = { id := newId
                    title := schema.title
                    image_url := none
                    category := schema.category
                    body := schema.body
                    session := schema.session
                    published_at := schema.published_at
                    signatories := sigs }) :
    AnnouncementService.create st schema newId
        (AnnouncementService.CreateOracle.mk true false updateOk) =
      (.error ⟨500, "An error occurred while uploading the announcement image"⟩,
        { st with announcements := st.announcements ++ [ann] }) ∧
      BaseRepository.get (st.announcements ++ [ann]) newId = some ann ∧
      ann.image_url = none := by
  subst hann
  refine ⟨?_, ?_, rfl⟩
  · simp only [AnnouncementService.create, hres, BaseRepository.createRow,
      upload_image_to_supabase]
    rfl
  · exact get_append_fresh st.announcements _ (fun x hx => by
      simpa using hfresh x hx)

/-- Witness for C4: creating `Q1 Update` with signatory `sig-1` over an empty
announcement table, with a failing upload: the 500 is reported and the row
(with `image_url = none`) is in the returned store. -/
theorem create_upload_failure_keeps_row_witness :
    AnnouncementService.create (Store.mk [jane] [] [])
        (AnnouncementForm.mk "Q1 Update" "pic.png" "General" "hello" "2024"
          "2024-01-01T00:00:00Z" ["sig-1"])
        "ann-1" (AnnouncementService.CreateOracle.mk true false true) =
      (.error ⟨500, "An error occurred while uploading the announcement image"⟩,
        { Store.mk [jane] [] [] with announcements := [] ++ [annNoImage] }) ∧
      BaseRepository.get ([] ++ [annNoImage]) "ann-1" = some annNoImage ∧
      annNoImage.image_url = none :=
  create_upload_failure_keeps_row (Store.mk [jane] [] [])
    (AnnouncementForm.mk "Q1 Update" "pic.png" "General" "hello" "2024"
      "2024-01-01T00:00:00Z" ["sig-1"])
    "ann-1" true [jane] annNoImage rfl (by simp) rfl

/-! ## Claim C5 -/

/-- C5: an announcement-update request supplying a new image whose upload
fails aborts the whole update with the storage 500 before any field
assignment or persistence: the store is returned unchanged (no non-image
field of the stored announcement changes, no repository update is
performed), whatever the commit oracle. -/
theorem update_upload_failure_aborts (st : Store) (announcement_id : String)
    (schema : AnnouncementUpdateForm) (commitOk : Bool) (a : Announcement)
    (fname : String)
    (hget : BaseRepository.get st.announcements announcement_id = some a)
    (himg : schema.image = some fname)
    (hsig : schema.signatories = none ∨
      ∃ ids sigs, schema.signatories = some ids ∧
        AnnouncementService.resolve_signatories st.signatories ids = .ok sigs) :
    AnnouncementService.update st announcement_id schema false commitOk =
      (.error ⟨500, "An error occurred while uploading the announcement image"⟩,
        st) ∧
      BaseRepository.get st.announcements announcement_id = some a := by
  refine ⟨?_, hget⟩
  rcases hsig with h | ⟨ids, sigs, hids, hok⟩
  · simp only [AnnouncementService.update, hget, h, himg,
      upload_image_to_supabase, if_neg (Bool.false_ne_true)]
  · simp only [AnnouncementService.update, hget, hids, hok, himg,
      upload_image_to_supabase, if_neg (Bool.false_ne_true)]

/-- Witness for C5: updating `ann-1`'s title together with a new image whose
upload fails leaves the store unchanged and reports the storage 500. -/
theorem update_upload_failure_aborts_witness :
    AnnouncementService.update (Store.mk [jane] [annNoImage] []) "ann-1"
        (AnnouncementUpdateForm.mk (some "New Title") (some "new.jpg") none none
          none none none) false true =
      (.error ⟨500, "An error occurred while uploading the announcement image"⟩,
        Store.mk [jane] [annNoImage] []) ∧
      BaseRepository.get (Store.mk [jane] [annNoImage] []).announcements "ann-1" =
        some annNoImage :=
  update_upload_failure_aborts (Store.mk [jane] [annNoImage] []) "ann-1"
    (AnnouncementUpdateForm.mk (some "New Title") (some "new.jpg") none none none
      none none) true annNoImage "new.jpg" rfl rfl (Or.inl rfl)

/-! ## Update success-path computed forms -/

/-- The signatory `applyUpdate` never changes the primary key. -/
theorem signatory_applyUpdate_id (s : Signatory) (r : SignatoryUpdateRequest) :
    (SignatoryService.applyUpdate s r).id = s.id := rfl

/-- Computed form of `SignatoryService.update` on the success path. -/
theorem signatory_update_ok (st : Store) (sid : String)
    (schema : SignatoryUpdateRequest) (s : Signatory)
    (hs : BaseRepository.get st.signatories sid = some s) :
    SignatoryService.update st sid schema true =
      (.ok (some (SignatoryService.applyUpdate s schema)),
        { st with signatories :=
          st.signatories.map (fun x =>
            if HasId.entityId x ==
                HasId.entityId (SignatoryService.applyUpdate s schema) then
              SignatoryService.applyUpdate s schema
            else x) }) := by
  have hid : HasId.entityId (SignatoryService.applyUpdate s schema) = sid := by
    have h1 := get_entityId st.signatories sid s hs
    simpa [SignatoryService.applyUpdate, HasId.entityId] using h1
  have hne : BaseRepository.get st.signatories
      (HasId.entityId (SignatoryService.applyUpdate s schema)) ≠ none := by
    rw [hid, hs]
    simp
  simp only [SignatoryService.update, hs, updateRow_of_mem st.signatories _ hne,
    if_true]

/-- The announcement `applyUpdate` never changes the primary key, image URL, or
association set. -/
theorem announcement_applyUpdate_frame (a : Announcement)
    (r : AnnouncementUpdateForm) :
    (AnnouncementService.applyUpdate a r).id = a.id ∧
      (AnnouncementService.applyUpdate a r).image_url = a.image_url ∧
      (AnnouncementService.applyUpdate a r).signatories = a.signatories :=
  ⟨rfl, rfl, rfl⟩

/-- Computed form of `AnnouncementService.update` on the success path with no
new image: `ann1` is the loaded row after the (optional) association
replacement. -/
theorem announcement_update_no_image_ok (st : Store) (aid : String)
    (schema : AnnouncementUpdateForm) (uploadOk : Bool) (a ann1 : Announcement)
    (ha : BaseRepository.get st.announcements aid = some a)
    (himg : schema.image = none)
    (hsig : (schema.signatories = none ∧ ann1 = a) ∨
      (∃ ids sigs, schema.signatories = some ids ∧
        AnnouncementService.resolve_signatories st.signatories ids = .ok sigs ∧
        ann1 = { a with signatories := sigs })) :
    AnnouncementService.update st aid schema uploadOk true =
      (.ok (some (AnnouncementService.applyUpdate ann1 schema)),
        { st with announcements :=
          st.announcements.map (fun x =>
            if HasId.entityId x ==
                HasId.entityId (AnnouncementService.applyUpdate ann1 schema) then
              AnnouncementService.applyUpdate ann1 schema
            else x) }) := by
  have haid : a.id = aid := get_entityId st.announcements aid a ha
  have hid : HasId.entityId (AnnouncementService.applyUpdate ann1 schema) = aid := by
    rcases hsig with ⟨-, h1⟩ | ⟨ids, sigs, -, -, h1⟩ <;>
      simp [h1, AnnouncementService.applyUpdate, HasId.entityId, haid]
  have hne : BaseRepository.get st.announcements
      (HasId.entityId (AnnouncementService.applyUpdate ann1 schema)) ≠ none := by
    rw [hid, ha]
    simp
  rcases hsig with ⟨h1, h2⟩ | ⟨ids, sigs, h1, hres, h2⟩
  · subst h2
    simp only [AnnouncementService.update, ha, h1, himg,
      updateRow_of_mem st.announcements _ hne, if_true]
  · subst h2
    simp only [AnnouncementService.update, ha, h1, hres, himg,
      updateRow_of_mem st.announcements _ hne, if_true]

/-! ## Claim C6 -/

/-- C6: a partial update of a signatory or an announcement leaves every field
absent from the request at exactly its prior stored value, while each field
explicitly supplied — including one explicitly set to null (`some none` on a
nullable signatory field) — takes the supplied value; the omitted/cleared
distinction is preserved. -/
theorem partial_update_preserves_unset_fields (st : Store) (sid aid : String)
    (sreq : SignatoryUpdateRequest) (areq : AnnouncementUpdateForm)
    (uploadOk : Bool) (s : Signatory) (a : Announcement)
    (hs : BaseRepository.get st.signatories sid = some s)
    (ha : BaseRepository.get st.announcements aid = some a)
    (himg : areq.image = none) (hsig : areq.signatories = none) :
    (∃ u st2, SignatoryService.update st sid sreq true = (.ok (some u), st2) ∧
      BaseRepository.get st2.signatories sid = some u ∧
      st2.announcements = st.announcements ∧
      st2.storage = st.storage ∧
      u.id = s.id ∧
      (sreq.name = none → u.name = s.name) ∧
      (∀ v, sreq.name = some v → u.name = v) ∧
      (sreq.«alias» = none → u.«alias» = s.«alias») ∧
      (∀ v, sreq.«alias» = some v → u.«alias» = v) ∧
      (sreq.role = none → u.role = s.role) ∧
      (∀ v, sreq.role = some v → u.role = v) ∧
      (sreq.contact = none → u.contact = s.contact) ∧
      (∀ v, sreq.contact = some v → u.contact = v)) ∧
    (∃ u st2, AnnouncementService.update st aid areq uploadOk true =
        (.ok (some u), st2) ∧
      BaseRepository.get st2.announcements aid = some u ∧
      st2.signatories = st.signatories ∧
      st2.storage = st.storage ∧
      u.id = a.id ∧
      u.image_url = a.image_url ∧
      u.signatories = a.signatories ∧
      (areq.title = none → u.title = a.title) ∧
      (∀ v, areq.title = some v → u.title = v) ∧
      (areq.category = none → u.category = a.category) ∧
      (∀ v, areq.category = some v → u.category = v) ∧
      (areq.body = none → u.body = a.body) ∧
      (∀ v, areq.body = some v → u.body = v) ∧
      (areq.session = none → u.session = a.session) ∧
      (∀ v, areq.session = some v → u.session = v) ∧
      (areq.published_at = none → u.published_at = a.published_at) ∧
      (∀ v, areq.published_at = some v → u.published_at = v)) := by
  constructor
  · have hid : HasId.entityId (SignatoryService.applyUpdate s sreq) = sid := by
      have h1 := get_entityId st.signatories sid s hs
      simpa [SignatoryService.applyUpdate, HasId.entityId] using h1
    have hne : BaseRepository.get st.signatories sid ≠ none := by
      rw [hs]
      simp
    refine ⟨SignatoryService.applyUpdate s sreq, _, signatory_update_ok st sid sreq s hs,
      get_map_replace st.signatories _ sid hid hne, rfl, rfl, rfl, ?_, ?_, ?_, ?_,
      ?_, ?_, ?_, ?_⟩
    · intro h0
      simp [SignatoryService.applyUpdate, h0]
    · intro v hv
      simp [SignatoryService.applyUpdate, hv]
    · intro h0
      simp [SignatoryService.applyUpdate, h0]
    · intro v hv
      simp [SignatoryService.applyUpdate, hv]
    · intro h0
      simp [SignatoryService.applyUpdate, h0]
    · intro v hv
      simp [SignatoryService.applyUpdate, hv]
    · intro h0
      simp [SignatoryService.applyUpdate, h0]
    · intro v hv
      simp [SignatoryService.applyUpdate, hv]
  · have haid : a.id = aid := get_entityId st.announcements aid a ha
    have hid : HasId.entityId (AnnouncementService.applyUpdate a areq) = aid := by
      simpa [AnnouncementService.applyUpdate, HasId.entityId] using haid
    have hne : BaseRepository.get st.announcements aid ≠ none := by
      rw [ha]
      simp
    refine ⟨AnnouncementService.applyUpdate a areq, _,
      announcement_update_no_image_ok st aid areq uploadOk a a ha himg
        (Or.inl ⟨hsig, rfl⟩),
      get_map_replace st.announcements _ aid hid hne, rfl, rfl, rfl, rfl, rfl,
      ?_, ?_, ?_, ?_, ?_, ?_, ?_, ?_, ?_, ?_⟩
    · intro h0
      simp [AnnouncementService.applyUpdate, h0]
    · intro v hv
      simp [AnnouncementService.applyUpdate, hv]
    · intro h0
      simp [AnnouncementService.applyUpdate, h0]
    · intro v hv
      simp [AnnouncementService.applyUpdate, hv]
    · intro h0
      simp [AnnouncementService.applyUpdate, h0]
    · intro v hv
      simp [AnnouncementService.applyUpdate, hv]
    · intro h0
      simp [AnnouncementService.applyUpdate, h0]
    · intro v hv
      simp [AnnouncementService.applyUpdate, hv]
    · intro h0
      simp [AnnouncementService.applyUpdate, h0]
    · intro v hv
      simp [AnnouncementService.applyUpdate, hv]

/-- Witness for C6: in a store with `jane` and `ann-1`, a signatory request
omitting `name`/`role`, explicitly clearing `alias`, and setting `contact`,
together with an announcement request setting only `title`. -/
theorem partial_update_preserves_unset_fields_witness :
    (∃ u st2, SignatoryService.update (Store.mk [jane] [annNoImage] []) "sig-1"
          (SignatoryUpdateRequest.mk none (some none) none (some (some "x@y"))) true =
        (.ok (some u), st2) ∧
      BaseRepository.get st2.signatories "sig-1" = some u ∧
      st2.announcements = (Store.mk [jane] [annNoImage] []).announcements ∧
      st2.storage = (Store.mk [jane] [annNoImage] []).storage ∧
      u.id = jane.id ∧
      ((SignatoryUpdateRequest.mk none (some none) none
          (some (some "x@y"))).name = none → u.name = jane.name) ∧
      (∀ v, (SignatoryUpdateRequest.mk none (some none) none
          (some (some "x@y"))).name = some v → u.name = v) ∧
      ((SignatoryUpdateRequest.mk none (some none) none
          (some (some "x@y"))).«alias» = none → u.«alias» = jane.«alias») ∧
      (∀ v, (SignatoryUpdateRequest.mk none (some none) none
          (some (some "x@y"))).«alias» = some v → u.«alias» = v) ∧
      ((SignatoryUpdateRequest.mk none (some none) none
          (some (some "x@y"))).role = none → u.role = jane.role) ∧
      (∀ v, (SignatoryUpdateRequest.mk none (some none) none
          (some (some "x@y"))).role = some v → u.role = v) ∧
      ((SignatoryUpdateRequest.mk none (some none) none
          (some (some "x@y"))).contact = none → u.contact = jane.contact) ∧
      (∀ v, (SignatoryUpdateRequest.mk none (some none) none
          (some (some "x@y"))).contact = some v → u.contact = v)) ∧
    (∃ u st2, AnnouncementService.update (Store.mk [jane] [annNoImage] []) "ann-1"
          (AnnouncementUpdateForm.mk (some "New Title") none none none none none
            none) true true =
        (.ok (some u), st2) ∧
      BaseRepository.get st2.announcements "ann-1" = some u ∧
      st2.signatories = (Store.mk [jane] [annNoImage] []).signatories ∧
      st2.storage = (Store.mk [jane] [annNoImage] []).storage ∧
      u.id = annNoImage.id ∧
      u.image_url = annNoImage.image_url ∧
      u.signatories = annNoImage.signatories ∧
      ((AnnouncementUpdateForm.mk (some "New Title") none none none none none
          none).title = none → u.title = annNoImage.title) ∧
      (∀ v, (AnnouncementUpdateForm.mk (some "New Title") none none none none none
          none).title = some v → u.title = v) ∧
      ((AnnouncementUpdateForm.mk (some "New Title") none none none none none
          none).category = none → u.category = annNoImage.category) ∧
      (∀ v, (AnnouncementUpdateForm.mk (some "New Title") none none none none none
          none).category = some v → u.category = v) ∧
      ((AnnouncementUpdateForm.mk (some "New Title") none none none none none
          none).body = none → u.body = annNoImage.body) ∧
      (∀ v, (AnnouncementUpdateForm.mk (some "New Title") none none none none none
          none).body = some v → u.body = v) ∧
      ((AnnouncementUpdateForm.mk (some "New Title") none none none none none
          none).session = none → u.session = annNoImage.session) ∧
      (∀ v, (AnnouncementUpdateForm.mk (some "New Title") none none none none none
          none).session = some v → u.session = v) ∧
      ((AnnouncementUpdateForm.mk (some "New Title") none none none none none
          none).published_at = none → u.published_at = annNoImage.published_at) ∧
      (∀ v, (AnnouncementUpdateForm.mk (some "New Title") none none none none none
          none).published_at = some v → u.published_at = v)) :=
  partial_update_preserves_unset_fields (Store.mk [jane] [annNoImage] [])
    "sig-1" "ann-1"
    (SignatoryUpdateRequest.mk none (some none) none (some (some "x@y")))
    (AnnouncementUpdateForm.mk (some "New Title") none none none none none none)
    true jane annNoImage rfl rfl rfl rfl

/-! ## Claim C7 -/

/-- C7: on announcement update, a supplied signatory id list (even empty) is
re-resolved id by id and the full association set is replaced by exactly the
resolved list (the empty list clears it); an unresolved id fails with the
404 naming the first unresolved id and leaves the store unchanged; an
omitted list leaves the association set untouched. -/
theorem update_signatories_replaces_association_set (st : Store) (aid : String)
    (schema : AnnouncementUpdateForm) (uploadOk commitOk : Bool) (a : Announcement)
    (ha : BaseRepository.get st.announcements aid = some a)
    (himg : schema.image = none) :
    (∀ ids sigs, schema.signatories = some ids →
      AnnouncementService.resolve_signatories st.signatories ids = .ok sigs →
      ∃ u st2, AnnouncementService.update st aid schema uploadOk true =
          (.ok (some u), st2) ∧
        BaseRepository.get st2.announcements aid = some u ∧
        u.signatories = sigs) ∧
    (schema.signatories = some [] →
      ∃ u st2, AnnouncementService.update st aid schema uploadOk true =
          (.ok (some u), st2) ∧
        BaseRepository.get st2.announcements aid = some u ∧
        u.signatories = []) ∧
    (schema.signatories = none →
      ∃ u st2, AnnouncementService.update st aid schema uploadOk true =
          (.ok (some u), st2) ∧
        BaseRepository.get st2.announcements aid = some u ∧
        u.signatories = a.signatories) ∧
    (∀ ids, schema.signatories = some ids →
      (∃ i ∈ ids, BaseRepository.get st.signatories i = none) →
      ∃ badId, BaseRepository.get st.signatories badId = none ∧
        AnnouncementService.update st aid schema uploadOk commitOk =
          (.error ⟨404, "Signatory with ID " ++ badId ++ " not found"⟩, st)) := by
  have haid : a.id = aid := get_entityId st.announcements aid a ha
  have hne : BaseRepository.get st.announcements aid ≠ none := by
    rw [ha]
    simp
  have main : ∀ ids sigs, schema.signatories = some ids →
      AnnouncementService.resolve_signatories st.signatories ids = .ok sigs →
      ∃ u st2, AnnouncementService.update st aid schema uploadOk true =
          (.ok (some u), st2) ∧
        BaseRepository.get st2.announcements aid = some u ∧
        u.signatories = sigs := by
    intro ids sigs hids hres
    have hid : HasId.entityId
        (AnnouncementService.applyUpdate { a with signatories := sigs } schema)
          = aid := by
      simpa [AnnouncementService.applyUpdate, HasId.entityId] using haid
    exact ⟨AnnouncementService.applyUpdate { a with signatories := sigs } schema, _,
      announcement_update_no_image_ok st aid schema uploadOk a
        { a with signatories := sigs } ha himg
        (Or.inr ⟨ids, sigs, hids, hres, rfl⟩),
      get_map_replace st.announcements _ aid hid hne, rfl⟩
  refine ⟨main, ?_, ?_, ?_⟩
  · intro hempty
    exact main [] [] hempty rfl
  · intro hnone
    have hid : HasId.entityId (AnnouncementService.applyUpdate a schema) = aid := by
      simpa [AnnouncementService.applyUpdate, HasId.entityId] using haid
    exact ⟨AnnouncementService.applyUpdate a schema, _,
      announcement_update_no_image_ok st aid schema uploadOk a a ha himg
        (Or.inl ⟨hnone, rfl⟩),
      get_map_replace st.announcements _ aid hid hne, rfl⟩
  · intro ids hids hbadmem
    obtain ⟨pre, badId, post, -, -, hbad, hres⟩ :=
      resolve_signatories_first_error st.signatories ids hbadmem
    refine ⟨badId, hbad, ?_⟩
    simp only [AnnouncementService.update, ha, hids, hres]

/-- Witness for C7: updating `ann-1` (whose association set is `[jane]`) in a
store that also has `mark`: supplying `[sig-2]` replaces the set with
`[mark]`, supplying `[]` clears it, omitting the list keeps `[jane]`, and
supplying `[sig-404]` yields the 404 naming `sig-404` with the store
unchanged. -/
theorem update_signatories_replaces_association_set_witness :
    ((∀ ids sigs, (some ["sig-2"] : Option (List String)) = some ids →
      AnnouncementService.resolve_signatories
        (Store.mk [jane, mark] [annNoImage] []).signatories ids = .ok sigs →
      ∃ u st2, AnnouncementService.update (Store.mk [jane, mark] [annNoImage] [])
          "ann-1"
          (AnnouncementUpdateForm.mk none none none none none none
            (some ["sig-2"])) true true =
          (.ok (some u), st2) ∧
        BaseRepository.get st2.announcements "ann-1" = some u ∧
        u.signatories = sigs) ∧
      ((some ["sig-2"] : Option (List String)) = some [] →
        ∃ u st2, AnnouncementService.update (Store.mk [jane, mark] [annNoImage] [])
            "ann-1"
            (AnnouncementUpdateForm.mk none none none none none none
              (some ["sig-2"])) true true =
            (.ok (some u), st2) ∧
          BaseRepository.get st2.announcements "ann-1" = some u ∧
          u.signatories = []) ∧
      ((some ["sig-2"] : Option (List String)) = none →
        ∃ u st2, AnnouncementService.update (Store.mk [jane, mark] [annNoImage] [])
            "ann-1"
            (AnnouncementUpdateForm.mk none none none none none none
              (some ["sig-2"])) true true =
            (.ok (some u), st2) ∧
          BaseRepository.get st2.announcements "ann-1" = some u ∧
          u.signatories = annNoImage.signatories) ∧
      (∀ ids, (some ["sig-2"] : Option (List String)) = some ids →
        (∃ i ∈ ids, BaseRepository.get
          (Store.mk [jane, mark] [annNoImage] []).signatories i = none) →
        ∃ badId, BaseRepository.get
            (Store.mk [jane, mark] [annNoImage] []).signatories badId = none ∧
          AnnouncementService.update (Store.mk [jane, mark] [annNoImage] [])
              "ann-1"
              (AnnouncementUpdateForm.mk none none none none none none
                (some ["sig-2"])) true true =
            (.error ⟨404, "Signatory with ID " ++ badId ++ " not found"⟩,
              Store.mk [jane, mark] [annNoImage] []))) ∧
    AnnouncementService.resolve_signatories
        (Store.mk [jane, mark] [annNoImage] []).signatories ["sig-2"] =
      .ok [mark] :=
  ⟨update_signatories_replaces_association_set
      (Store.mk [jane, mark] [annNoImage] []) "ann-1"
      (AnnouncementUpdateForm.mk none none none none none none (some ["sig-2"]))
      true true annNoImage rfl rfl,
    rfl⟩

/-! ## Claim C8 -/

/-- C8: deleting an announcement that has an image reference, when the
storage deletion fails, reports the storage 500 and never reaches the
database delete: the store is returned unchanged and the row remains
retrievable. -/
theorem delete_storage_failure_keeps_row (st : Store) (announcement_id : String)
    (a : Announcement) (url : String) (dbOk : Bool)
    (hget : BaseRepository.get st.announcements announcement_id = some a)
    (hurl : a.image_url = some url) :
    AnnouncementService.delete st announcement_id false dbOk =
      (.error ⟨500, "An error occurred while deleting the announcement image"⟩,
        st) ∧
      BaseRepository.get st.announcements announcement_id = some a := by
  refine ⟨?_, hget⟩
  simp only [AnnouncementService.delete, hget, hurl, delete_image_from_supabase,
    if_neg (Bool.false_ne_true)]

/-- Witness for C8: deleting `ann-2` (which has an image URL) with a failing
storage deletion reports the 500 and leaves the row in place. -/
theorem delete_storage_failure_keeps_row_witness :
    AnnouncementService.delete (Store.mk [jane] [annWithImage] []) "ann-2"
        false true =
      (.error ⟨500, "An error occurred while deleting the announcement image"⟩,
        Store.mk [jane] [annWithImage] []) ∧
      BaseRepository.get (Store.mk [jane] [annWithImage] []).announcements "ann-2" =
        some annWithImage :=
  delete_storage_failure_keeps_row (Store.mk [jane] [annWithImage] []) "ann-2"
    annWithImage
    "https://supabase.example.com/storage/v1/object/public/announcements/announcements/ann-2.png"
    true rfl rfl

/-! ## Claim C9 -/

/-- C9 (code bug, evaluated at the failing input): with every external step
succeeding — signatory `sig-1` resolves, the DB persist succeeds, the storage
upload succeeds — creating `Q1 Update` with image `pic.png` still returns the
upload 500 and no response at all, because the source awaits the synchronous
upload helper's `str` and the resulting `TypeError` lands in the upload
`except` block; the persisted row keeps `image_url = none` while the uploaded
object sits orphaned in storage. Independently, the response schema
`AnnouncementResponse` declares no `image_url` field, so even a serialized
response of the persisted row would contain no `image_url` key. -/
theorem create_with_image_never_returns_image_url :
    create_announcement (Store.mk [jane] [] [])
        (AnnouncementForm.mk "Q1 Update" "pic.png" "General" "hello" "2024"
          "2024-01-01T00:00:00Z" ["sig-1"])
        "ann-1" (AnnouncementService.CreateOracle.mk true true true) =
      (.error ⟨500, "An error occurred while uploading the announcement image"⟩,
        Store.mk [jane] [annNoImage] ["announcements/ann-1.png"]) ∧
    BaseRepository.get [annNoImage] "ann-1" = some annNoImage ∧
    annNoImage.image_url = none ∧
    "image_url" ∉
      (AnnouncementResponse.model_dump (announcementToResponse annNoImage)).map
        Prod.fst :=
  ⟨rfl, rfl, rfl, by decide⟩

/-- Witness for C10 at a concrete store and page: the endpoint fails at
`page_size = 0` and succeeds at `page_size = 10`. -/
theorem paginate_page_size_zero_division_witness :
    BaseRepository.paginate (Store.mk [] [] []).announcements 1 0 =
        .error .zeroDivisionError ∧
      get_all_announcements (Store.mk [] [] []) 1 0 = .error .zeroDivisionError ∧
      ((0 : Int) < 10 ∧
        ∃ r, get_all_announcements (Store.mk [] [] []) 1 10 = .ok r) := by
  obtain ⟨h1, h2, h3⟩ := paginate_page_size_zero_division (Store.mk [] [] []) 1
  exact ⟨h1, h2, by decide, h3 10 (by decide)⟩
